import Mathlib

/-!
Shallow embedding of the multi-provider completion adapter of MineChatWeb
(backend/app/services/ai_providers.py and backend/app/api/v1/chat.py),
together with theorems settling the frozen claims about it.

Conventions:
* Python dict fields that may be absent are `Option` values; Python
  truthiness of an optional string (`if x:`) is `(x.getD "") ≠ ""`.
* Exceptions are modelled with `Except`; `asyncio.TimeoutError` versus other
  exceptions is the inductive `PyErr`.
* Attempt/round counting is made explicit so retry and loop-bound claims can
  be stated exactly.
-/

namespace MineChat

/-- Substring test on character lists: `needle` occurs inside `hay`
(Python `needle in hay`). -/
def listIsInfix (needle : List Char) : List Char → Bool
  | [] => needle.isEmpty
  | c :: t => needle.isPrefixOf (c :: t) || listIsInfix needle t

/-- Lower-cased character sequence of a string (Python `s.lower()`). -/
def lowerChars (s : String) : List Char := s.data.map Char.toLower

/-- Embedding of the no-retry test in `AIProviderService.get_completion`
(ai_providers.py line 493):
`any(keyword in str(e).lower() for keyword in
['authentication', 'authorization', 'api key', 'invalid'])`. -/
def isAuthKeywordError (m : String) : Bool :=
  ["authentication", "authorization", "api key", "invalid"].any
    (fun k => listIsInfix k.data (lowerChars m))

/-- Timeout / retry configuration set in `AIProviderService.__init__`
(ai_providers.py lines 22-26). -/
structure ServiceConfig where
  default_timeout : Nat
  responses_api_timeout : Nat
  config_timeout : Nat
  max_retries : Nat
  deriving Repr, DecidableEq

/-- The values assigned in `AIProviderService.__init__`. -/
def serviceConfig : ServiceConfig :=
  { default_timeout := 60
    responses_api_timeout := 180
    config_timeout := 30
    max_retries := 2 }

/-- A Python exception as seen by `get_completion`'s handlers:
`asyncio.TimeoutError` is caught separately from every other exception. -/
inductive PyErr where
  | timeoutErr (msg : String)
  | exc (msg : String)
  deriving Repr, DecidableEq

/-- A tool / function call entry as carried in the normalized chat-format
response (`{"id": ..., "type": ..., "function": {"name": ..., "arguments": ...}}`). -/
structure ToolCall where
  id : Option String := none
  ty : Option String := none
  name : Option String := none
  arguments : Option String := none
  deriving Repr, DecidableEq

/-- An image-generation entry extracted from a Responses-API `output` item
(`_convert_responses_to_chat_format`, ai_providers.py lines 598-605). -/
structure ImageGeneration where
  id : Option String := none
  status : Option String := none
  result : Option String := none
  revised_prompt : Option String := none
  deriving Repr, DecidableEq

/-- A custom-tool-call entry (ai_providers.py lines 622-629);
`input_` embeds the `"input"` field, defaulted to `""`. -/
structure CustomToolCall where
  id : Option String := none
  name : Option String := none
  input_ : String := ""
  call_id : Option String := none
  deriving Repr, DecidableEq

/-- An MCP list-tools entry (ai_providers.py lines 634-640); the tool list
payload is abstracted as opaque strings. -/
structure McpListTools where
  id : Option String := none
  server_label : Option String := none
  tools : List String := []
  deriving Repr, DecidableEq

/-- An MCP call entry (ai_providers.py lines 644-655). -/
structure McpCall where
  id : Option String := none
  server_label : Option String := none
  name : Option String := none
  arguments : Option String := none
  output : Option String := none
  error : Option String := none
  approval_request_id : Option String := none
  status : String := "completed"
  execution_time : Option String := none
  deriving Repr, DecidableEq

/-- An MCP approval-request entry (ai_providers.py lines 668-675). -/
structure McpApprovalRequest where
  id : Option String := none
  server_label : Option String := none
  name : Option String := none
  arguments : Option String := none
  deriving Repr, DecidableEq

/-- A citation copied out of an Anthropic text block
(`_convert_anthropic_response_to_openai_format`, ai_providers.py
lines 1518-1528); field values are those the `getattr` calls produce. -/
structure AnthropicCitation where
  ty : String := "unknown"
  cited_text : String := ""
  source : String := ""
  title : String := ""
  document_index : Nat := 0
  start_char_index : Nat := 0
  end_char_index : Nat := 0
  deriving Repr, DecidableEq

/-- An MCP tool-use entry from an Anthropic response (ai_providers.py
lines 1548-1555); the raw `input` dict is abstracted as a string. -/
structure McpToolUse where
  id : String := ""
  name : String := ""
  server_name : String := ""
  input_ : String := ""
  deriving Repr, DecidableEq

/-- An MCP tool-result entry from an Anthropic response (ai_providers.py
lines 1559-1567); the raw content blocks are abstracted as strings. -/
structure McpToolResult where
  tool_use_id : String := ""
  is_error : Bool := false
  content : List String := []
  server_name : String := ""
  execution_time : Option String := none
  deriving Repr, DecidableEq

/-- The assistant message inside a normalized chat-format choice.  Fields the
converters only sometimes attach are `Option`s / lists (absent = `none` / `[]`). -/
structure ChatMessage where
  role : String := "assistant"
  content : String := ""
  tool_calls : List ToolCall := []
  reasoning : Option String := none
  custom_tool_calls : List CustomToolCall := []
  image_generations : List ImageGeneration := []
  mcp_list_tools : List McpListTools := []
  mcp_calls : List McpCall := []
  mcp_approval_requests : List McpApprovalRequest := []
  citations : List AnthropicCitation := []
  mcp_tool_uses : List McpToolUse := []
  mcp_tool_results : List McpToolResult := []
  deriving Repr, DecidableEq

/-- One entry of the `choices` array of a normalized chat-format response. -/
structure Choice where
  message : ChatMessage
  finish_reason : String
  index : Nat := 0
  deriving Repr, DecidableEq

/-- Token usage of a normalized chat-format response. -/
structure Usage where
  prompt_tokens : Nat := 0
  completion_tokens : Nat := 0
  total_tokens : Nat := 0
  deriving Repr, DecidableEq

/-- A normalized chat-format completion response (the canonical
CompletionResult shape produced by the per-provider converters). -/
structure ChatResult where
  id : String := ""
  choices : List Choice := []
  usage : Usage := {}
  deriving Repr, DecidableEq

deriving instance DecidableEq for Except

/-- Outcome of one `get_completion` call, with the retry bookkeeping made
observable: the final result, how many provider-call attempts were made, and
the `asyncio.sleep` durations executed between attempts (seconds). -/
structure RetryOutcome where
  result : Except PyErr ChatResult
  attemptsMade : Nat
  sleeps : List Nat
  deriving Repr, DecidableEq

/-- Error message synthesized when all attempts time out
(ai_providers.py line 489). -/
def timeoutExhaustedMsg (provider : String) (maxRetries : Nat) : String :=
  provider ++ " API调用超时，已重试" ++ toString maxRetries ++ "次，请稍后重试"

/-- Embedding of the retry loop of `AIProviderService.get_completion`
(ai_providers.py lines 465-506).  `call n` is the outcome of the
provider-specific completion call on attempt `n` (`n = 0` first).  The loop
`for attempt in range(self.max_retries + 1)` is unrolled as fuel-indexed
recursion; the fuel-zero branch embeds the unreachable line 505. -/
def retryFrom (provider : String) (call : Nat → Except PyErr ChatResult)
    (maxRetries : Nat) : Nat → Nat → RetryOutcome
  | _, 0 => { result := .error (.exc "unreachable"), attemptsMade := 0, sleeps := [] }
  | attempt, fuel + 1 =>
    match call attempt with
    | .ok r => { result := .ok r, attemptsMade := 1, sleeps := [] }
    | .error (.timeoutErr _m) =>
      if attempt < maxRetries then
        let rest := retryFrom provider call maxRetries (attempt + 1) fuel
        { result := rest.result
          attemptsMade := rest.attemptsMade + 1
          sleeps := 2 ^ attempt :: rest.sleeps }
      else
        { result := .error (.exc (timeoutExhaustedMsg provider maxRetries))
          attemptsMade := 1, sleeps := [] }
    | .error (.exc m) =>
      if isAuthKeywordError m then
        { result := .error (.exc m), attemptsMade := 1, sleeps := [] }
      else if attempt < maxRetries then
        let rest := retryFrom provider call maxRetries (attempt + 1) fuel
        { result := rest.result
          attemptsMade := rest.attemptsMade + 1
          sleeps := 2 ^ attempt :: rest.sleeps }
      else
        { result := .error (.exc m), attemptsMade := 1, sleeps := [] }

/-- `AIProviderService.get_completion` with the per-provider call abstracted:
runs the retry loop from attempt 0 with `self.max_retries = 2`. -/
def get_completion (provider : String) (call : Nat → Except PyErr ChatResult) :
    RetryOutcome :=
  retryFrom provider call serviceConfig.max_retries 0 (serviceConfig.max_retries + 1)

theorem retryFrom_attemptsMade_le (provider : String)
    (call : Nat → Except PyErr ChatResult) (maxRetries : Nat) :
    ∀ fuel attempt, (retryFrom provider call maxRetries attempt fuel).attemptsMade ≤ fuel := by
  intro fuel
  induction fuel with
  | zero => intro attempt; simp [retryFrom]
  | succ n ih =>
    intro attempt
    unfold retryFrom
    cases call attempt with
    | ok r => simp
    | error e =>
      cases e with
      | timeoutErr m =>
        by_cases h : attempt < maxRetries
        · simpa [h] using Nat.succ_le_succ (ih (attempt + 1))
        · simp [h]
      | exc m =>
        by_cases ha : isAuthKeywordError m
        · simp [ha]
        · by_cases h : attempt < maxRetries
          · simpa [ha, h] using Nat.succ_le_succ (ih (attempt + 1))
          · simp [ha, h]

/-- C1: `get_completion` makes at most 3 total provider-call attempts, and when
the provider call raises `TimeoutError` on exactly the first two attempts and
succeeds on the third, it retries with exponential backoff sleeps of
`2^attempt` seconds (1s then 2s) and returns the third attempt's success
result to the caller. -/
theorem get_completion_timeout_retry_backoff :
    (∀ provider call, (get_completion provider call).attemptsMade ≤ 3) ∧
    (∀ provider call (r : ChatResult) (m1 m2 : String),
      call 0 = Except.error (PyErr.timeoutErr m1) →
      call 1 = Except.error (PyErr.timeoutErr m2) →
      call 2 = Except.ok r →
      get_completion provider call =
        { result := Except.ok r, attemptsMade := 3, sleeps := [1, 2] }) := by
  constructor
  · intro provider call
    exact retryFrom_attemptsMade_le provider call serviceConfig.max_retries
      (serviceConfig.max_retries + 1) 0
  · intro provider call r m1 m2 h0 h1 h2
    simp [get_completion, serviceConfig, retryFrom, h0, h1, h2]

/-- A provider call that times out on attempts 0 and 1 and succeeds on
attempt 2. -/
def timeoutTwiceCall : Nat → Except PyErr ChatResult :=
  fun n => if n < 2 then .error (.timeoutErr "Request timed out") else .ok {}

theorem get_completion_timeout_retry_backoff_witness :
    get_completion "openai" timeoutTwiceCall =
      { result := Except.ok {}, attemptsMade := 3, sleeps := [1, 2] } :=
  get_completion_timeout_retry_backoff.2 "openai" timeoutTwiceCall {}
    "Request timed out" "Request timed out" rfl rfl rfl

/-- C2: when the provider call raises a non-timeout error whose text contains
an authentication / authorization / api key / invalid keyword
(case-insensitively), `get_completion` propagates it immediately: the
provider call is invoked exactly once and the same error is re-raised. -/
theorem get_completion_auth_error_no_retry :
    ∀ provider call (m : String), isAuthKeywordError m = true →
      call 0 = Except.error (PyErr.exc m) →
      get_completion provider call =
        { result := Except.error (PyErr.exc m), attemptsMade := 1, sleeps := [] } := by
  intro provider call m hauth h0
  simp [get_completion, serviceConfig, retryFrom, h0, hauth]

/-- A provider call that always raises an authentication-style error. -/
def authErrorCall : Nat → Except PyErr ChatResult :=
  fun _ => .error (.exc "Invalid API key provided")

theorem get_completion_auth_error_no_retry_witness :
    isAuthKeywordError "Invalid API key provided" = true ∧
    get_completion "openai" authErrorCall =
      { result := Except.error (PyErr.exc "Invalid API key provided")
        attemptsMade := 1, sleeps := [] } :=
  ⟨by decide,
   get_completion_auth_error_no_retry "openai" authErrorCall
     "Invalid API key provided" (by decide) rfl⟩

/-! ### Tool-call loop (`backend/app/api/v1/chat.py`, `_handle_function_calling`) -/

/-- The external tool-execution collaborators used inside the loop:
`json.loads` on the argument string, `plugin_executor.execute_function_call`,
and `plugin_executor.format_tool_result_for_ai`.  All are out-of-scope
collaborators, abstracted as functions; a raised exception is `Except.error`
carrying the exception text. -/
structure ToolEnv where
  parseArguments : String → Except String String
  executeFunction : Option String → String → Except String String
  formatResult : String → String

/-- `hasattr(ai_service, '_is_responses_api_model')` (chat.py lines 85, 105,
122): `AIProviderService` defines `_is_openai_responses_api` but no attribute
named `_is_responses_api_model`, so this test is always false. -/
def hasIsResponsesApiModelAttr : Bool := false

/-- The condition selecting the Responses-API tool-result format
(`request.provider == "openai" and hasattr(ai_service, '_is_responses_api_model')`). -/
def useResponsesToolResultFormat (provider : String) : Bool :=
  provider == "openai" && hasIsResponsesApiModelAttr

/-- Python `str(x)` on an optional string (`None` prints as `"None"`). -/
def optStr : Option String → String
  | none => "None"
  | some s => s

/-- A tool-result message appended to the history: either the standard
Chat-Completions `{"role": "tool", ...}` shape or the Responses-API
`{"type": "function_call_output", ...}` shape. -/
inductive ToolResultMsg where
  | toolMsg (content : String) (tool_call_id : Option String)
  | functionCallOutput (call_id : Option String) (output : String)
  deriving Repr, DecidableEq

/-- Embedding of one iteration of the per-call loop in
`_handle_function_calling` (chat.py lines 66-133): a `function`-typed call
parses its arguments and executes; any exception is captured and converted
into a tool-result message carrying `"Error executing function: ..."`; a
non-`function` call produces an unsupported-type error message.  Every branch
produces exactly one tool-result message. -/
def processToolCall (env : ToolEnv) (provider : String) (tc : ToolCall) :
    ToolResultMsg :=
  if tc.ty == some "function" then
    match env.parseArguments (tc.arguments.getD "{}") with
    | .error e =>
      let msg := "Error executing function: " ++ e
      if useResponsesToolResultFormat provider then
        .functionCallOutput (some (tc.id.getD "unknown")) msg
      else
        .toolMsg msg (some (tc.id.getD "unknown"))
    | .ok args =>
      match env.executeFunction tc.name args with
      | .error e =>
        let msg := "Error executing function: " ++ e
        if useResponsesToolResultFormat provider then
          .functionCallOutput (some (tc.id.getD "unknown")) msg
        else
          .toolMsg msg (some (tc.id.getD "unknown"))
      | .ok result =>
        let result_text := env.formatResult result
        if useResponsesToolResultFormat provider then
          .functionCallOutput tc.id result_text
        else
          .toolMsg result_text tc.id
  else
    let msg := "Error: Unsupported tool call type: " ++ optStr tc.ty
    if useResponsesToolResultFormat provider then
      .functionCallOutput tc.id msg
    else
      .toolMsg msg tc.id

/-- The whole per-round call loop: one result per pending tool call, in
order. -/
def executeFunctionCalls (env : ToolEnv) (provider : String)
    (toolCalls : List ToolCall) : List ToolResultMsg :=
  toolCalls.map (processToolCall env provider)

/-- One entry of the running message history inside the tool-call loop. -/
inductive HistMsg where
  | request (role content : String)
  | assistantToolCalls (content : String) (tool_calls : List ToolCall)
  | toolResult (r : ToolResultMsg)
  deriving Repr, DecidableEq

/-- History extension of one round (chat.py lines 56-62 and 135-136): the
assistant message carrying the pending tool calls, then one result message
per call. -/
def roundMessages (env : ToolEnv) (provider : String) (msgs : List HistMsg)
    (msg : ChatMessage) : List HistMsg :=
  msgs ++ [HistMsg.assistantToolCalls msg.content msg.tool_calls]
       ++ (executeFunctionCalls env provider msg.tool_calls).map HistMsg.toolResult

/-- Embedding of the `for iteration in range(max_iterations)` loop of
`_handle_function_calling` (chat.py lines 45-166).  `getC n msgs` is the
outcome of the `n`-th resubmission through `get_completion` (0-based).
Returns the final response and the number of resubmission calls made;
`none` models an uncaught `IndexError` on an empty initial `choices`. -/
def fcLoop (env : ToolEnv) (provider : String)
    (getC : Nat → List HistMsg → Except String ChatResult) :
    Nat → Nat → List HistMsg → ChatResult → Option (ChatResult × Nat)
  | 0, calls, _msgs, resp => some (resp, calls)
  | fuel + 1, calls, msgs, resp =>
    match resp.choices.head? with
    | none => none
    | some choice =>
      if choice.message.tool_calls.isEmpty then
        some (resp, calls)
      else
        let msgs' := roundMessages env provider msgs choice.message
        match getC calls msgs' with
        | .error _ => some (resp, calls + 1)
        | .ok r' =>
          match r'.choices.head? with
          | none => some (r', calls + 1)
          | some c' =>
            if c'.message.tool_calls.isEmpty && (c'.finish_reason != "tool_calls") then
              some (r', calls + 1)
            else
              fcLoop env provider getC fuel (calls + 1) msgs' r'

/-- `_handle_function_calling`, with `max_iterations = 10` (chat.py line 41). -/
def handle_function_calling (env : ToolEnv) (provider : String)
    (getC : Nat → List HistMsg → Except String ChatResult)
    (initialMessages : List HistMsg) (initialResponse : ChatResult) :
    Option (ChatResult × Nat) :=
  fcLoop env provider getC 10 0 initialMessages initialResponse

theorem fcLoop_always_pending (env : ToolEnv) (provider : String)
    (mk : Nat → ChatResult)
    (hmk : ∀ n, ∃ c, (mk n).choices.head? = some c ∧ c.message.tool_calls ≠ []) :
    ∀ fuel calls msgs resp c, resp.choices.head? = some c →
      c.message.tool_calls ≠ [] →
      fcLoop env provider (fun n _ => .ok (mk n)) (fuel + 1) calls msgs resp =
        some (mk (calls + fuel), calls + fuel + 1) := by
  intro fuel
  induction fuel with
  | zero =>
    intro calls msgs resp c hc hne
    obtain ⟨c', hc', hne'⟩ := hmk calls
    simp [fcLoop, hc, List.isEmpty_iff, hne, hc', hne']
  | succ n ih =>
    intro calls msgs resp c hc hne
    obtain ⟨c', hc', hne'⟩ := hmk calls
    have harith : calls + 1 + n = calls + (n + 1) := by omega
    have hrec := ih (calls + 1)
      (roundMessages env provider msgs c.message) (mk calls) c' hc' hne'
    rw [harith] at hrec
    rw [fcLoop]
    simp [hc, List.isEmpty_iff, hne, hc', hne', hrec]

/-- C3: the tool-call loop is capped at 10 rounds: against a model that always
returns pending tool calls, `_handle_function_calling` makes exactly 10
resubmission round-trips through `get_completion` and then returns the 10th
round's result (the response of call index 9) as a normal value — it neither
loops forever nor raises on cap exhaustion. -/
theorem tool_loop_cap_ten_rounds (env : ToolEnv) (provider : String)
    (mk : Nat → ChatResult) (initMsgs : List HistMsg) (init : ChatResult)
    (c : Choice) (hc : init.choices.head? = some c)
    (hne : c.message.tool_calls ≠ [])
    (hmk : ∀ n, ∃ c', (mk n).choices.head? = some c' ∧ c'.message.tool_calls ≠ []) :
    handle_function_calling env provider (fun n _ => .ok (mk n)) initMsgs init =
      some (mk 9, 10) := by
  have h := fcLoop_always_pending env provider mk hmk 9 0 initMsgs init c hc hne
  simpa [handle_function_calling] using h

/-- A mocked model response whose single choice always carries a pending
function call; its id records the round so the rounds are distinguishable. -/
def alwaysToolCallsResp (n : Nat) : ChatResult :=
  { id := "resp-" ++ toString n
    choices := [{ message := { content := ""
                               tool_calls := [{ id := some ("call-" ++ toString n)
                                                ty := some "function"
                                                name := some "f"
                                                arguments := some "{}" }] }
                  finish_reason := "tool_calls" }] }

/-- A trivial tool-execution environment whose calls always succeed. -/
def trivialToolEnv : ToolEnv :=
  { parseArguments := fun s => .ok s
    executeFunction := fun _ _ => .ok "ok"
    formatResult := fun s => s }

theorem tool_loop_cap_ten_rounds_witness :
    handle_function_calling trivialToolEnv "openai"
      (fun n _ => .ok (alwaysToolCallsResp n)) [] (alwaysToolCallsResp 0) =
      some (alwaysToolCallsResp 9, 10) := by
  exact tool_loop_cap_ten_rounds trivialToolEnv "openai" alwaysToolCallsResp []
    (alwaysToolCallsResp 0) _ rfl (by simp [alwaysToolCallsResp])
    (fun n => ⟨_, rfl, by simp [alwaysToolCallsResp]⟩)

/-- C7: within one round, every pending tool call yields exactly one
tool-result message (so one failing call never blocks the rest): the result
list has one entry per call, each entry depends only on its own call, and a
call whose execution (or argument parsing) raises produces a tool-result
message containing `"Error executing function: ..."` instead of raising. -/
theorem tool_round_executes_all_calls :
    (∀ env provider tcs,
        (executeFunctionCalls env provider tcs).length = tcs.length) ∧
    (∀ env provider tcs (i : Nat) (h : i < tcs.length)
        (h' : i < (executeFunctionCalls env provider tcs).length),
        (executeFunctionCalls env provider tcs).get ⟨i, h'⟩ =
          processToolCall env provider (tcs.get ⟨i, h⟩)) ∧
    (∀ env provider (tc : ToolCall) a e, tc.ty = some "function" →
        env.parseArguments (tc.arguments.getD "{}") = Except.ok a →
        env.executeFunction tc.name a = Except.error e →
        processToolCall env provider tc =
          ToolResultMsg.toolMsg ("Error executing function: " ++ e)
            (some (tc.id.getD "unknown"))) ∧
    (∀ env provider (tc : ToolCall) e, tc.ty = some "function" →
        env.parseArguments (tc.arguments.getD "{}") = Except.error e →
        processToolCall env provider tc =
          ToolResultMsg.toolMsg ("Error executing function: " ++ e)
            (some (tc.id.getD "unknown"))) := by
  refine ⟨?_, ?_, ?_, ?_⟩
  · intro env provider tcs
    simp [executeFunctionCalls]
  · intro env provider tcs i h h'
    simp [executeFunctionCalls]
  · intro env provider tc a e hty hparse hexec
    simp [processToolCall, hty, hparse, hexec, useResponsesToolResultFormat,
      hasIsResponsesApiModelAttr]
  · intro env provider tc e hty hparse
    simp [processToolCall, hty, hparse, useResponsesToolResultFormat,
      hasIsResponsesApiModelAttr]

/-- A tool environment where arguments `"bad"` fail to parse and function
`"boom"` fails to execute. -/
def failingToolEnv : ToolEnv :=
  { parseArguments := fun s => if s == "bad" then .error "bad json" else .ok s
    executeFunction := fun n _ =>
      if n == some "boom" then .error "exec failed" else .ok "fine"
    formatResult := fun s => s }

/-- A well-behaved function call. -/
def tcOk : ToolCall :=
  { id := some "a", ty := some "function", name := some "f", arguments := some "{}" }

/-- A function call whose execution raises. -/
def tcBoom : ToolCall :=
  { id := some "b", ty := some "function", name := some "boom", arguments := some "{}" }

/-- A function call whose arguments fail to parse. -/
def tcBadArgs : ToolCall :=
  { id := none, ty := some "function", name := some "f", arguments := some "bad" }

theorem tool_round_executes_all_calls_witness :
    (executeFunctionCalls failingToolEnv "openai" [tcOk, tcBoom]).length = 2 ∧
    (executeFunctionCalls failingToolEnv "openai" [tcOk, tcBoom]).get
        ⟨1, by decide⟩ =
      processToolCall failingToolEnv "openai" ([tcOk, tcBoom].get ⟨1, by decide⟩) ∧
    processToolCall failingToolEnv "openai" tcBoom =
      ToolResultMsg.toolMsg "Error executing function: exec failed" (some "b") ∧
    processToolCall failingToolEnv "openai" tcBadArgs =
      ToolResultMsg.toolMsg "Error executing function: bad json" (some "unknown") :=
  ⟨tool_round_executes_all_calls.1 failingToolEnv "openai" [tcOk, tcBoom],
   tool_round_executes_all_calls.2.1 failingToolEnv "openai" [tcOk, tcBoom] 1
     (by decide) (by decide),
   tool_round_executes_all_calls.2.2.1 failingToolEnv "openai" tcBoom "{}"
     "exec failed" rfl rfl rfl,
   tool_round_executes_all_calls.2.2.2 failingToolEnv "openai" tcBadArgs
     "bad json" rfl rfl⟩

/-- C10: if the resubmission through `get_completion` raises after the round's
tool results have been appended, the loop breaks and
`_handle_function_calling` returns the last successfully obtained response —
whose tool calls are still pending — instead of propagating the exception.
Stated for any reachable loop iteration, and for the top-level entry. -/
theorem tool_loop_resubmission_error_returns_last (env : ToolEnv)
    (provider : String) (getC : Nat → List HistMsg → Except String ChatResult) :
    (∀ fuel calls msgs resp (c : Choice) e, resp.choices.head? = some c →
        c.message.tool_calls ≠ [] →
        getC calls (roundMessages env provider msgs c.message) = .error e →
        fcLoop env provider getC (fuel + 1) calls msgs resp = some (resp, calls + 1)) ∧
    (∀ msgs resp (c : Choice) e, resp.choices.head? = some c →
        c.message.tool_calls ≠ [] →
        getC 0 (roundMessages env provider msgs c.message) = .error e →
        handle_function_calling env provider getC msgs resp = some (resp, 1)) := by
  have hstep : ∀ fuel calls msgs resp (c : Choice) e, resp.choices.head? = some c →
      c.message.tool_calls ≠ [] →
      getC calls (roundMessages env provider msgs c.message) = .error e →
      fcLoop env provider getC (fuel + 1) calls msgs resp = some (resp, calls + 1) := by
    intro fuel calls msgs resp c e hc hne herr
    rw [fcLoop]
    simp [hc, List.isEmpty_iff, hne, herr]
  exact ⟨hstep, fun msgs resp c e hc hne herr =>
    hstep 9 0 msgs resp c e hc hne herr⟩

theorem tool_loop_resubmission_error_returns_last_witness :
    handle_function_calling trivialToolEnv "anthropic"
      (fun _ _ => .error "boom") [] (alwaysToolCallsResp 0) =
      some (alwaysToolCallsResp 0, 1) := by
  exact (tool_loop_resubmission_error_returns_last trivialToolEnv "anthropic"
      (fun _ _ => .error "boom")).2 [] (alwaysToolCallsResp 0) _ "boom" rfl
      (by simp [alwaysToolCallsResp]) rfl

/-! ### Responses-API → chat format (`_convert_responses_to_chat_format`) -/

/-- One entry of a reasoning item's `summary` array. -/
structure SummaryItem where
  ty : String
  text : Option String := none
  deriving Repr, DecidableEq

/-- One entry of a message item's `content` array. -/
structure MessageContentItem where
  ty : String
  text : Option String := none
  deriving Repr, DecidableEq

/-- One entry of a Responses-API result's `output` array, as discriminated by
`item.get("type")` in `_convert_responses_to_chat_format` (ai_providers.py
lines 587-686).  Fields are the keys the converter reads; absent keys are
`none`. -/
inductive OutputItem where
  | reasoningItem (summary : List SummaryItem)
  | imageGenerationCall (id status result revised_prompt : Option String)
  | functionCall (call_id id name arguments : Option String)
  | customToolCall (id name input_ call_id : Option String)
  | mcpListTools (id server_label : Option String) (tools : Option (List String))
  | mcpCall (id server_label name arguments output error approval_request_id
      status execution_time : Option String)
  | mcpApprovalRequest (id server_label name arguments : Option String)
  | messageItem (role : String) (content : List MessageContentItem)
  | otherItem (ty : String)
  deriving Repr, DecidableEq

/-- Python truthiness of an optional string (`if item.get(k):`). -/
def optTruthy (o : Option String) : Bool := o.getD "" != ""

/-- The converter's accumulator: the local variables of
`_convert_responses_to_chat_format` (ai_providers.py lines 575-585). -/
structure ConvState where
  assistant_content : String := ""
  finish_reason : String := "stop"
  reasoning_content : String := ""
  image_generations : List ImageGeneration := []
  function_calls : List ToolCall := []
  custom_tool_calls : List CustomToolCall := []
  mcp_list_tools : List McpListTools := []
  mcp_calls : List McpCall := []
  mcp_approval_requests : List McpApprovalRequest := []
  deriving Repr, DecidableEq

/-- One iteration of the `for item in output` loop of
`_convert_responses_to_chat_format` (ai_providers.py lines 587-686). -/
def stepOutputItem (st : ConvState) (item : OutputItem) : ConvState :=
  match item with
  | .reasoningItem summary =>
    match summary.find? (fun s => s.ty == "summary_text") with
    | some s => { st with reasoning_content := s.text.getD "" }
    | none => st
  | .imageGenerationCall id status result revised_prompt =>
    { st with image_generations := st.image_generations ++
        [{ id := id, status := status, result := result
           revised_prompt := revised_prompt }] }
  | .functionCall call_id id name arguments =>
    { st with
      function_calls := st.function_calls ++
        [{ id := call_id <|> id, ty := some "function", name := name
           arguments := some (arguments.getD "{}") }]
      finish_reason := "tool_calls" }
  | .customToolCall id name input_ call_id =>
    { st with
      custom_tool_calls := st.custom_tool_calls ++
        [{ id := id, name := name, input_ := input_.getD "", call_id := call_id }]
      finish_reason := "tool_calls" }
  | .mcpListTools id server_label tools =>
    { st with mcp_list_tools := st.mcp_list_tools ++
        [{ id := id, server_label := server_label, tools := tools.getD [] }] }
  | .mcpCall id server_label name arguments output error approval_request_id
      status execution_time =>
    let st' : ConvState := { st with mcp_calls := st.mcp_calls ++
        [{ id := id, server_label := server_label, name := name
           arguments := arguments, output := output, error := error
           approval_request_id := approval_request_id
           status := status.getD "completed"
           execution_time := execution_time }] }
    if optTruthy error then { st' with finish_reason := "mcp_error" }
    else if optTruthy approval_request_id then
      { st' with finish_reason := "approval_required" }
    else { st' with finish_reason := "mcp_tool_calls" }
  | .mcpApprovalRequest id server_label name arguments =>
    { st with
      mcp_approval_requests := st.mcp_approval_requests ++
        [{ id := id, server_label := server_label, name := name
           arguments := arguments }]
      finish_reason := "approval_required" }
  | .messageItem role content =>
    if role == "assistant" then
      match content.find? (fun ci => ci.ty == "output_text") with
      | some ci => { st with assistant_content := ci.text.getD "" }
      | none => st
    else st
  | .otherItem _ => st

/-- Placeholder for the synthesized id `f"resp_{hash(str(output)) % 1000000}"`
(ai_providers.py line 743): Python's `hash` is process-seeded, so the value
is abstracted to the constant prefix. -/
def synthesizedRespId (_output : List OutputItem) : String := "resp_"

/-- Embedding of the main conversion path of
`_convert_responses_to_chat_format` (ai_providers.py lines 572-752), taking
the `output` array together with the optional `id` and `usage` fields of the
Responses-API result.  (The early returns at lines 564-570 pass results that
are already chat-format, or lack an `output` key, through unchanged and are
outside this function's domain.) -/
def convert_responses_to_chat_format (id? : Option String)
    (output : List OutputItem) (usage? : Option Usage) : ChatResult :=
  let st := output.foldl stepOutputItem {}
  let choice : Choice :=
    { message := { role := "assistant"
                   content := st.assistant_content
                   tool_calls := st.function_calls
                   custom_tool_calls := st.custom_tool_calls
                   reasoning := if st.reasoning_content != "" then
                       some st.reasoning_content else none
                   image_generations := st.image_generations
                   mcp_list_tools := st.mcp_list_tools
                   mcp_calls := st.mcp_calls
                   mcp_approval_requests := st.mcp_approval_requests }
      finish_reason := st.finish_reason
      index := 0 }
  let choices := [choice]
  -- ai_providers.py lines 728-739: `if not choices and image_generations:` —
  -- `choices` just received `choice`, so the synthesized empty-text choice
  -- branch is unreachable
  let choices :=
    if choices.isEmpty && !st.image_generations.isEmpty then
      [{ message := { role := "assistant", content := ""
                      image_generations := st.image_generations }
         finish_reason := "stop", index := 0 }]
    else choices
  { id := id?.getD (synthesizedRespId output)
    choices := choices
    usage := usage?.getD {} }

/-! ### Anthropic Messages → chat format
(`_convert_anthropic_response_to_openai_format`, `_map_anthropic_stop_reason`) -/

/-- One content block of an Anthropic Messages response, as discriminated by
`content_block.type` (ai_providers.py lines 1510-1567).  For `tool_use` /
`mcp_tool_use`, `input_` stands for the already-serialized `input` payload
(`json.dumps` is a collaborator). -/
inductive AnthropicBlock where
  | textBlock (text : String) (citations : List AnthropicCitation)
  | thinkingBlock (content : String) (thinking : String)
  | toolUse (id name input_ : String)
  | mcpToolUse (id name server_name input_ : String)
  | mcpToolResult (tool_use_id : String) (is_error : Bool)
      (content : List String) (server_name : String)
      (execution_time : Option String)
  | otherBlock (ty : String)
  deriving Repr, DecidableEq

/-- Token usage of an Anthropic response. -/
structure AnthropicUsage where
  input_tokens : Nat := 0
  output_tokens : Nat := 0
  deriving Repr, DecidableEq

/-- An Anthropic Messages API response, restricted to the attributes the
converter reads; `none` models a missing attribute. -/
structure AnthropicResponse where
  id : Option String := none
  content : List AnthropicBlock := []
  stop_reason : Option String := none
  usage : Option AnthropicUsage := none
  deriving Repr, DecidableEq

/-- The converter's accumulator (ai_providers.py lines 1502-1507). -/
structure AnthropicConvState where
  content_text : String := ""
  thinking_content : String := ""
  citations : List AnthropicCitation := []
  tool_calls : List ToolCall := []
  mcp_tool_uses : List McpToolUse := []
  mcp_tool_results : List McpToolResult := []
  deriving Repr, DecidableEq

/-- One iteration of the `for content_block in response.content` loop
(ai_providers.py lines 1511-1567).  A `thinking` block is only consumed when
`thinking_mode` is set; `content or thinking` is Python or-truthiness. -/
def stepAnthropicBlock (thinking_mode : Bool) (st : AnthropicConvState)
    (b : AnthropicBlock) : AnthropicConvState :=
  match b with
  | .textBlock text citations =>
    { st with content_text := st.content_text ++ text
              citations := st.citations ++ citations }
  | .thinkingBlock content thinking =>
    if thinking_mode then
      { st with thinking_content := if content != "" then content else thinking }
    else st
  | .toolUse id name input_ =>
    { st with tool_calls := st.tool_calls ++
        [{ id := some id, ty := some "function", name := some name
           arguments := some input_ }] }
  | .mcpToolUse id name server_name input_ =>
    { st with mcp_tool_uses := st.mcp_tool_uses ++
        [{ id := id, name := name, server_name := server_name
           input_ := input_ }] }
  | .mcpToolResult tool_use_id is_error content server_name execution_time =>
    { st with mcp_tool_results := st.mcp_tool_results ++
        [{ tool_use_id := tool_use_id, is_error := is_error, content := content
           server_name := server_name, execution_time := execution_time }] }
  | .otherBlock _ => st

/-- `AIProviderService._map_anthropic_stop_reason` (ai_providers.py
lines 1610-1618): a fixed table with default `"stop"`; the argument is the
response's `stop_reason` attribute (`None` when absent). -/
def map_anthropic_stop_reason (stop_reason : Option String) : String :=
  match stop_reason with
  | some "end_turn" => "stop"
  | some "max_tokens" => "length"
  | some "tool_use" => "tool_calls"
  | some "mcp_tool_use" => "mcp_tool_calls"
  | _ => "stop"

/-- `AIProviderService._convert_anthropic_response_to_openai_format`
(ai_providers.py lines 1500-1608). -/
def convert_anthropic_response_to_openai_format (resp : AnthropicResponse)
    (thinking_mode : Bool) : ChatResult :=
  let st := resp.content.foldl (stepAnthropicBlock thinking_mode) {}
  let message : ChatMessage :=
    { role := "assistant"
      content := st.content_text
      reasoning := if st.thinking_content != "" && thinking_mode then
          some st.thinking_content else none
      citations := st.citations
      tool_calls := st.tool_calls
      mcp_tool_uses := st.mcp_tool_uses
      mcp_tool_results := st.mcp_tool_results }
  { id := "msg_" ++ resp.id.getD "unknown"
    choices := [{ message := message
                  finish_reason := map_anthropic_stop_reason resp.stop_reason
                  index := 0 }]
    usage := match resp.usage with
      | some u => { prompt_tokens := u.input_tokens
                    completion_tokens := u.output_tokens
                    total_tokens := u.input_tokens + u.output_tokens }
      | none => {} }

/-- The finishReason enumeration stated by the spec (§3 invariant). -/
def specFinishReasons : List String :=
  ["stop", "length", "tool_calls", "approval_required", "mcp_error", "content_filter"]

/-- The finish reasons the normalizers can actually produce:
the spec enumeration extended with `"mcp_tool_calls"`. -/
def extendedFinishReasons : List String := specFinishReasons ++ ["mcp_tool_calls"]

theorem stepOutputItem_finish_mem (st : ConvState) (item : OutputItem)
    (h : extendedFinishReasons.contains st.finish_reason = true) :
    extendedFinishReasons.contains (stepOutputItem st item).finish_reason = true := by
  cases item with
  | reasoningItem summary =>
    simp only [stepOutputItem]
    cases summary.find? (fun s => s.ty == "summary_text") <;> simpa using h
  | imageGenerationCall id status result revised_prompt =>
    simpa [stepOutputItem] using h
  | functionCall call_id id name arguments =>
    simp [stepOutputItem, extendedFinishReasons, specFinishReasons]
  | customToolCall id name input_ call_id =>
    simp [stepOutputItem, extendedFinishReasons, specFinishReasons]
  | mcpListTools id server_label tools =>
    simpa [stepOutputItem] using h
  | mcpCall id server_label name arguments output error approval_request_id
      status execution_time =>
    simp only [stepOutputItem]
    split_ifs <;> simp [extendedFinishReasons, specFinishReasons]
  | mcpApprovalRequest id server_label name arguments =>
    simp [stepOutputItem, extendedFinishReasons, specFinishReasons]
  | messageItem role content =>
    simp only [stepOutputItem]
    split
    · cases content.find? (fun ci => ci.ty == "output_text") <;> simpa using h
    · exact h
  | otherItem ty =>
    simpa [stepOutputItem] using h

theorem foldl_stepOutputItem_finish_mem (output : List OutputItem) :
    ∀ st : ConvState, extendedFinishReasons.contains st.finish_reason = true →
      extendedFinishReasons.contains
        ((output.foldl stepOutputItem st).finish_reason) = true := by
  induction output with
  | nil => intro st h; simpa using h
  | cons i t ih => intro st h; exact ih _ (stepOutputItem_finish_mem st i h)

/-- C4 counterexample: a Responses-API result whose `output` holds one plain
(successful) `mcp_call` item is normalized to `finish_reason =
"mcp_tool_calls"`, and the Anthropic table maps `mcp_tool_use` to the same
value — a finish reason outside the spec's six-value enumeration. -/
theorem finish_reason_escapes_spec_enumeration :
    (convert_responses_to_chat_format none
        [OutputItem.mcpCall none none none none none none none none none]
        none).choices.map (fun c => c.finish_reason) = ["mcp_tool_calls"] ∧
    map_anthropic_stop_reason (some "mcp_tool_use") = "mcp_tool_calls" ∧
    specFinishReasons.contains "mcp_tool_calls" = false := by
  exact ⟨by decide, rfl, by decide⟩

/-- C4 (amended): every normalized result carries a populated Choice whose
`finish_reason` is set and lies in the spec enumeration extended with
`mcp_tool_calls`: the Responses-API normalizer always emits a non-empty
choice list whose finish reasons all lie in that set, and the Anthropic
stop-reason map lands in it for every input. -/
theorem finish_reason_in_extended_enumeration :
    (∀ id? output usage?,
        (convert_responses_to_chat_format id? output usage?).choices ≠ [] ∧
        ((convert_responses_to_chat_format id? output usage?).choices.map
            (fun c => c.finish_reason)).all
          (fun f => extendedFinishReasons.contains f) = true) ∧
    (∀ s, extendedFinishReasons.contains (map_anthropic_stop_reason s) = true) := by
  constructor
  · intro id? output usage?
    have hmem := foldl_stepOutputItem_finish_mem output {} (by decide)
    constructor
    · simp [convert_responses_to_chat_format]
    · simpa [convert_responses_to_chat_format] using hmem
  · intro s
    unfold map_anthropic_stop_reason
    split <;> decide

/-- The mocked Anthropic backend response of the spec's example: text `"4"`,
stop reason `end_turn`. -/
def anthropicExampleResponse : AnthropicResponse :=
  { id := some "abc"
    content := [AnthropicBlock.textBlock "4" []]
    stop_reason := some "end_turn"
    usage := some { input_tokens := 12, output_tokens := 1 } }

/-- C8: the Anthropic normalizer maps `stop_reason` by the fixed table
`end_turn→stop`, `max_tokens→length`, `tool_use→tool_calls`,
`mcp_tool_use→mcp_tool_calls`; and a completion against a backend returning
stop reason `end_turn` with text `"4"` (no tools, thinking disabled) succeeds
on the first attempt with `finishReason = "stop"` and message text `"4"`. -/
theorem anthropic_stop_reason_table_and_example :
    map_anthropic_stop_reason (some "end_turn") = "stop" ∧
    map_anthropic_stop_reason (some "max_tokens") = "length" ∧
    map_anthropic_stop_reason (some "tool_use") = "tool_calls" ∧
    map_anthropic_stop_reason (some "mcp_tool_use") = "mcp_tool_calls" ∧
    (convert_anthropic_response_to_openai_format anthropicExampleResponse
        false).choices.map
        (fun c => (c.finish_reason, c.message.role, c.message.content)) =
      [("stop", "assistant", "4")] ∧
    get_completion "anthropic"
        (fun _ => .ok (convert_anthropic_response_to_openai_format
          anthropicExampleResponse false)) =
      { result := .ok (convert_anthropic_response_to_openai_format
          anthropicExampleResponse false)
        attemptsMade := 1, sleeps := [] } := by
  refine ⟨rfl, rfl, rfl, rfl, by decide, ?_⟩
  simp [get_completion, serviceConfig, retryFrom]

/-! ### Timeout selection (C6) -/

/-- `AIProviderService._is_gpt5_model` (ai_providers.py lines 553-556). -/
def is_gpt5_model (model : String) : Bool :=
  ["gpt-5", "gpt-5-mini", "gpt-5-nano", "gpt-5-chat-latest"].contains model

/-- `AIProviderService._is_thinking_model` (ai_providers.py lines 508-515). -/
def is_thinking_model (model : String) : Bool :=
  ["o1", "o1-preview", "o1-mini", "o1-pro",
   "o3", "o3-mini", "o3-pro",
   "o4-mini", "o4-mini-high"].contains model

/-- The client timeout chosen by `_openai_responses_completion`
(ai_providers.py line 768): the extended Responses-API timeout only for
GPT-5-family models or when thinking mode is enabled. -/
def openai_responses_timeout (model : String) (thinking_mode : Bool) : Nat :=
  if is_gpt5_model model || thinking_mode then serviceConfig.responses_api_timeout
  else serviceConfig.default_timeout

/-- The client / wait timeout used by `_anthropic_completion` for every call
(ai_providers.py lines 1368, 1443, 1448), thinking mode included. -/
def anthropic_completion_timeout : Nat := serviceConfig.default_timeout

/-- C6 counterexample: provider `openai` always routes through
`_openai_responses_completion` (ai_providers.py line 471), yet the call for
`gpt-4o` (not GPT-5-family) with thinking mode off uses the 60s default, not
the extended 180s timeout; likewise the reasoning-capable model `o1` without
thinking mode gets 60s, and Anthropic calls always get 60s. -/
theorem timeout_not_extended_for_all_responses_calls :
    serviceConfig.default_timeout = 60 ∧
    serviceConfig.responses_api_timeout = 180 ∧
    openai_responses_timeout "gpt-4o" false = 60 ∧
    openai_responses_timeout "gpt-4o" false ≠ 180 ∧
    is_thinking_model "o1" = true ∧
    openai_responses_timeout "o1" false = 60 ∧
    anthropic_completion_timeout = 60 := by
  refine ⟨rfl, rfl, by decide, by decide, by decide, by decide, rfl⟩

/-- C6 (amended): the default per-call timeout is 60s and the extended
Responses-API timeout is 180s, but the 180s timeout applies exactly when the
model is GPT-5-family or thinking mode is enabled; every other call —
including Responses-API calls for non-GPT-5 models without thinking mode and
all Anthropic calls — uses the 60s default. -/
theorem timeout_policy :
    serviceConfig.default_timeout = 60 ∧
    serviceConfig.responses_api_timeout = 180 ∧
    (∀ m, openai_responses_timeout m true = 180) ∧
    (∀ m t, is_gpt5_model m = true → openai_responses_timeout m t = 180) ∧
    (∀ m, is_gpt5_model m = false → openai_responses_timeout m false = 60) ∧
    anthropic_completion_timeout = 60 := by
  refine ⟨rfl, rfl, ?_, ?_, ?_, rfl⟩
  · intro m
    simp [openai_responses_timeout, serviceConfig]
  · intro m t h
    simp [openai_responses_timeout, h, serviceConfig]
  · intro m h
    simp [openai_responses_timeout, h, serviceConfig]

theorem timeout_policy_witness :
    openai_responses_timeout "gpt-4.1" true = 180 ∧
    openai_responses_timeout "gpt-5" false = 180 ∧
    openai_responses_timeout "gpt-4o" false = 60 :=
  ⟨timeout_policy.2.2.1 "gpt-4.1",
   timeout_policy.2.2.2.1 "gpt-5" false (by decide),
   timeout_policy.2.2.2.2.1 "gpt-4o" (by decide)⟩

/-! ### Streaming fallback (`stream_completion`, C5) -/

/-- A chunk yielded to the WebSocket layer by `stream_completion` and its
helpers: a Chat-Completions-style content delta
(`{'choices': [{'delta': {'content': s}, 'finish_reason': None}]}`), the
completion marker (`finish_reason: 'stop'` with empty delta), an error dict,
or — on the non-streaming fallback path — the entire completion response
yielded as one chunk. -/
inductive StreamChunk where
  | contentDelta (content : String)
  | doneChunk
  | errorChunk (msg : String)
  | fullResponse (r : ChatResult)
  deriving Repr, DecidableEq

/-- One event of the OpenAI Responses streaming API, discriminated by its
`type` as in `_openai_stream_completion` (ai_providers.py lines 2312-2375);
`progress` covers the acknowledged-but-not-forwarded event types of
lines 2347-2367. -/
inductive RespEvent where
  | outputTextDelta (delta : String)
  | completed
  | failed (message : String)
  | progress (ty : String)
  | unknown (ty : String)
  deriving Repr, DecidableEq

/-- Per-event translation of `_openai_stream_completion`'s loop:
`response.output_text.delta` forwards a content delta, `response.completed`
forwards the stop marker, `response.failed` forwards an error chunk, progress
and unknown events yield nothing. -/
def translateRespEvent : RespEvent → Option StreamChunk
  | .outputTextDelta d => some (.contentDelta d)
  | .completed => some .doneChunk
  | .failed m => some (.errorChunk m)
  | .progress _ => none
  | .unknown _ => none

/-- The chunk sequence `_openai_stream_completion` yields for a given
upstream event stream (successful upstream call). -/
def openai_stream_chunks (events : List RespEvent) : List StreamChunk :=
  events.filterMap translateRespEvent

/-- The `provider == "openai"` branch of `stream_completion`
(ai_providers.py lines 2214-2223): when the capability table reports
streaming support, the streaming translator runs; otherwise one
non-streaming `get_completion` call is made and its entire response is
yielded as a single chunk (`yield response`). `getCompletionResult` is that
call's successful result. -/
def stream_completion_openai (supportsStreaming : Bool)
    (events : List RespEvent) (getCompletionResult : ChatResult) :
    List StreamChunk :=
  if supportsStreaming then openai_stream_chunks events
  else [StreamChunk.fullResponse getCompletionResult]

/-- Whether a chunk is a content (text) delta. -/
def isContentDelta : StreamChunk → Bool
  | .contentDelta _ => true
  | _ => false

/-- Whether a chunk is the terminal completion marker. -/
def isDoneChunk : StreamChunk → Bool
  | .doneChunk => true
  | _ => false

/-- A concrete completion result with text `"hello"` for the fallback path. -/
def fallbackExampleResult : ChatResult :=
  { id := "chatcmpl-1"
    choices := [{ message := { content := "hello" }, finish_reason := "stop" }] }

/-- C5 counterexample: for a model with `supports_streaming = false`,
`stream_completion` yields exactly one chunk, and that chunk is the full
completion response — not a TextDelta carrying the text, and no Done chunk
follows — so the stream-shaped contract is not satisfied and the caller can
tell which path was taken. -/
theorem stream_fallback_not_delta_then_done :
    stream_completion_openai false [] fallbackExampleResult =
      [StreamChunk.fullResponse fallbackExampleResult] ∧
    (stream_completion_openai false [] fallbackExampleResult).any
      isContentDelta = false ∧
    (stream_completion_openai false [] fallbackExampleResult).any
      isDoneChunk = false := by
  exact ⟨rfl, by decide, by decide⟩

/-- C5 (amended): for a model flagged `supports_streaming = false`,
`stream()` transparently makes a single non-streaming call, but yields its
full completion response as one chunk: exactly one chunk is emitted, it is
the whole response object, and no TextDelta or Done chunk is produced. -/
theorem stream_fallback_single_full_response (r : ChatResult)
    (events : List RespEvent) :
    stream_completion_openai false events r = [StreamChunk.fullResponse r] ∧
    (stream_completion_openai false events r).length = 1 ∧
    (stream_completion_openai false events r).any isContentDelta = false ∧
    (stream_completion_openai false events r).any isDoneChunk = false := by
  refine ⟨rfl, rfl, ?_, ?_⟩ <;> simp [stream_completion_openai, isContentDelta, isDoneChunk]

/-! ### Message representations and request normalizers (C9)

`_convert_message_to_openai_format` / `_convert_message_to_anthropic_format`
accept both plain dicts and attribute-style (Pydantic) objects; the dict path
reads keys with `dict.get` (absent key → `None` or a literal default) while
the object path reads attributes with `getattr` (absent attribute → `""` or
the same literal default). -/

/-- Python truthiness of an `Optional[str]` value (`if x:` on the result of
`dict.get(key)`): `None` and `""` are falsy. -/
def pyTruthyOptStr : Option String → Bool
  | none => false
  | some s => s != ""

/-- Field values of an image attachment; `none` = key/attribute absent. -/
structure ImageFields where
  data : Option String := none
  mime_type : Option String := none
  deriving Repr, DecidableEq

/-- An image attachment as seen by a converter: plain dict or
attribute-style object over the same field values. -/
inductive ImageRepr where
  | dict (f : ImageFields)
  | obj (f : ImageFields)
  deriving Repr, DecidableEq

/-- Field values of a file attachment (all keys either converter reads). -/
structure FileFields where
  openai_file_id : Option String := none
  anthropic_file_id : Option String := none
  filename : Option String := none
  data : Option String := none
  mime_type : Option String := none
  url : Option String := none
  process_mode : Option String := none
  deriving Repr, DecidableEq

/-- A file attachment: plain dict or attribute-style object. -/
inductive FileRepr where
  | dict (f : FileFields)
  | obj (f : FileFields)
  deriving Repr, DecidableEq

/-- Field values of a search result entry. -/
structure SearchResultFields where
  source : Option String := none
  title : Option String := none
  content : Option String := none
  deriving Repr, DecidableEq

/-- A search result entry: plain dict or attribute-style object. -/
inductive SearchResultRepr where
  | dict (f : SearchResultFields)
  | obj (f : SearchResultFields)
  deriving Repr, DecidableEq

/-- Field values of a chat message (the keys/attributes the request
normalizers read). -/
structure MessageFields where
  role : Option String := none
  content : Option String := none
  images : Option (List ImageRepr) := none
  files : Option (List FileRepr) := none
  search_results : Option (List SearchResultRepr) := none
  citations_enabled : Option Bool := none
  deriving Repr, DecidableEq

/-- A chat message: plain dict or attribute-style object over the same field
values. -/
inductive MsgRepr where
  | dict (f : MessageFields)
  | obj (f : MessageFields)
  deriving Repr, DecidableEq

/-- `AIProviderService._get_message_attr` (ai_providers.py lines 30-36):
dict branch `msg.get(attr, "")`, object branch `getattr(msg, attr, "")` —
both default to `""`. -/
def get_message_attr (msg : MsgRepr) (attr : MessageFields → Option String) :
    String :=
  match msg with
  | .dict f => (attr f).getD ""
  | .obj f => (attr f).getD ""

/-- The `images` extraction (ai_providers.py lines 44-48, 1152-1158): dict
branch `msg.get("images")`, object branch `getattr(msg, "images", None)`. -/
def msgImages : MsgRepr → Option (List ImageRepr)
  | .dict f => f.images
  | .obj f => f.images

/-- The `files` extraction (ai_providers.py lines 51-55, 1153-1159). -/
def msgFiles : MsgRepr → Option (List FileRepr)
  | .dict f => f.files
  | .obj f => f.files

/-- The `search_results` extraction (ai_providers.py lines 1155, 1160). -/
def msgSearchResults : MsgRepr → Option (List SearchResultRepr)
  | .dict f => f.search_results
  | .obj f => f.search_results

/-- The `citations_enabled` extraction, defaulted to `False`
(ai_providers.py lines 1156, 1161). -/
def msgCitationsEnabled : MsgRepr → Bool
  | .dict f => f.citations_enabled.getD false
  | .obj f => f.citations_enabled.getD false

/-- Python truthiness of `xs and len(xs) > 0` for an optional list. -/
def truthyList {α : Type} : Option (List α) → Bool
  | none => false
  | some l => !l.isEmpty

/-- One part of an OpenAI multimodal content array. -/
inductive OpenAIPart where
  | textPart (text : String)
  | imageUrlPart (url : String)
  | inputFilePart (file_id : String)
  deriving Repr, DecidableEq

/-- The payload `_convert_message_to_openai_format` returns: the plain
`{role, content}` shape or the multimodal content-parts shape. -/
inductive OpenAIMessagePayload where
  | plain (role content : String)
  | multiPart (role : String) (parts : List OpenAIPart)
  deriving Repr, DecidableEq

/-- The shared image-processing body (ai_providers.py lines 81-87), after the
per-representation extraction of `image_data` and `mime_type`: a truthy
`data` value yields one base64 data-URI part. -/
def openaiImagePartFrom (dataTruthy : Bool) (dataVal mime : String) :
    List OpenAIPart :=
  if dataTruthy then
    [.imageUrlPart ("data:" ++ mime ++ ";base64," ++ dataVal)]
  else []

/-- Per-image processing of `_convert_message_to_openai_format`
(ai_providers.py lines 72-87): the dict branch reads `image.get("data")`
(`None` when absent) and `image.get("mime_type", "image/jpeg")`; the object
branch reads `getattr(image, "data", "")` and the same mime default. -/
def openaiImageParts (image : ImageRepr) : List OpenAIPart :=
  match image with
  | .dict f =>
    openaiImagePartFrom (pyTruthyOptStr f.data) (f.data.getD "")
      (f.mime_type.getD "image/jpeg")
  | .obj f =>
    let d := f.data.getD ""
    openaiImagePartFrom (d != "") d (f.mime_type.getD "image/jpeg")

/-- The shared file-processing body (ai_providers.py lines 101-109): a truthy
`openai_file_id` with `process_mode == "direct"` yields one `input_file`
part; code-interpreter / file-search modes are handled in the tools
configuration, not here. -/
def openaiFilePartFrom (idTruthy : Bool) (fid mode : String) :
    List OpenAIPart :=
  if idTruthy then
    if mode == "direct" then [.inputFilePart fid] else []
  else []

/-- Per-file processing of `_convert_message_to_openai_format`
(ai_providers.py lines 90-109). -/
def openaiFileParts (file : FileRepr) : List OpenAIPart :=
  match file with
  | .dict f =>
    openaiFilePartFrom (pyTruthyOptStr f.openai_file_id)
      (f.openai_file_id.getD "") (f.process_mode.getD "direct")
  | .obj f =>
    let fid := f.openai_file_id.getD ""
    openaiFilePartFrom (fid != "") fid (f.process_mode.getD "direct")

/-- `AIProviderService._convert_message_to_openai_format`
(ai_providers.py lines 38-114). -/
def convert_message_to_openai_format (msg : MsgRepr) : OpenAIMessagePayload :=
  let role := get_message_attr msg (fun f => f.role)
  let content := get_message_attr msg (fun f => f.content)
  let images := msgImages msg
  let files := msgFiles msg
  let has_multimedia := truthyList images || truthyList files
  if !has_multimedia then
    .plain role content
  else
    let textParts :=
      if content != "" && content.trim != "" then [OpenAIPart.textPart content]
      else []
    let imageParts := (images.getD []).foldl (fun a i => a ++ openaiImageParts i) []
    let fileParts := (files.getD []).foldl (fun a fl => a ++ openaiFileParts fl) []
    .multiPart role (textParts ++ imageParts ++ fileParts)

/-- One part of an Anthropic multimodal content array. -/
inductive AnthropicPart where
  | textPart (text : String)
  | imageBase64 (media_type data : String)
  | imageFile (file_id : String)
  | imageUrl (url : String)
  | documentFile (file_id : String)
  | documentUrl (url : String)
  | documentBase64 (media_type data : String)
  | searchResult (source title content : String) (citations_enabled : Bool)
  deriving Repr, DecidableEq

/-- The payload `_convert_message_to_anthropic_format` returns. -/
inductive AnthropicMessagePayload where
  | plain (role content : String)
  | multiPart (role : String) (parts : List AnthropicPart)
  deriving Repr, DecidableEq

/-- The shared image-processing body (ai_providers.py lines 1187-1195). -/
def anthropicImagePartFrom (dataTruthy : Bool) (dataVal mime : String) :
    List AnthropicPart :=
  if dataTruthy then [.imageBase64 mime dataVal] else []

/-- Per-image processing of `_convert_message_to_anthropic_format`
(ai_providers.py lines 1178-1195). -/
def anthropicImageParts (image : ImageRepr) : List AnthropicPart :=
  match image with
  | .dict f =>
    anthropicImagePartFrom (pyTruthyOptStr f.data) (f.data.getD "")
      (f.mime_type.getD "image/jpeg")
  | .obj f =>
    let d := f.data.getD ""
    anthropicImagePartFrom (d != "") d (f.mime_type.getD "image/jpeg")

/-- The shared file-processing body (ai_providers.py lines 1213-1303):
image mime types become image parts (Files-API id, then URL, then base64
data); other mime types become document parts, where base64 data is only
accepted for PDF and text-like mime types.  The base64-decoding of text
documents (lines 1276-1303) is output-irrelevant: every branch of it appends
the same document part. -/
def anthropicFilePartFrom (idTruthy : Bool) (fid : String) (urlTruthy : Bool)
    (furl : String) (dataTruthy : Bool) (fdata mime : String) :
    List AnthropicPart :=
  if mime.startsWith "image/" then
    if idTruthy then [.imageFile fid]
    else if urlTruthy then [.imageUrl furl]
    else if dataTruthy then [.imageBase64 mime fdata]
    else []
  else
    if idTruthy then [.documentFile fid]
    else if urlTruthy then [.documentUrl furl]
    else if dataTruthy && mime == "application/pdf" then
      [.documentBase64 mime fdata]
    else if dataTruthy && (mime.startsWith "text/" ||
        mime == "application/json" || mime == "application/xml") then
      [.documentBase64 mime fdata]
    else []

/-- Per-file processing of `_convert_message_to_anthropic_format`
(ai_providers.py lines 1198-1303): dict extraction yields `None` for absent
keys, object extraction yields `""`; the mime default is
`"application/octet-stream"` on both. -/
def anthropicFileParts (file : FileRepr) : List AnthropicPart :=
  match file with
  | .dict f =>
    anthropicFilePartFrom (pyTruthyOptStr f.anthropic_file_id)
      (f.anthropic_file_id.getD "") (pyTruthyOptStr f.url) (f.url.getD "")
      (pyTruthyOptStr f.data) (f.data.getD "")
      (f.mime_type.getD "application/octet-stream")
  | .obj f =>
    let fid := f.anthropic_file_id.getD ""
    let furl := f.url.getD ""
    let fdata := f.data.getD ""
    anthropicFilePartFrom (fid != "") fid (furl != "") furl (fdata != "")
      fdata (f.mime_type.getD "application/octet-stream")

/-- The shared search-result body (ai_providers.py lines 1317-1329): a truthy
`content` yields one `search_result` part carrying the message-level
`citations_enabled` flag. -/
def anthropicSearchResultPartFrom (source title content : String)
    (citations_enabled : Bool) : List AnthropicPart :=
  if content != "" then [.searchResult source title content citations_enabled]
  else []

/-- Per-search-result processing of `_convert_message_to_anthropic_format`
(ai_providers.py lines 1306-1329); all three fields default to `""` on both
representations. -/
def anthropicSearchResultParts (citations_enabled : Bool)
    (r : SearchResultRepr) : List AnthropicPart :=
  match r with
  | .dict f =>
    anthropicSearchResultPartFrom (f.source.getD "") (f.title.getD "")
      (f.content.getD "") citations_enabled
  | .obj f =>
    anthropicSearchResultPartFrom (f.source.getD "") (f.title.getD "")
      (f.content.getD "") citations_enabled

/-- `AIProviderService._convert_message_to_anthropic_format`
(ai_providers.py lines 1141-1334). -/
def convert_message_to_anthropic_format (msg : MsgRepr) :
    AnthropicMessagePayload :=
  let role := get_message_attr msg (fun f => f.role)
  let content := get_message_attr msg (fun f => f.content)
  let images := msgImages msg
  let files := msgFiles msg
  let search_results := msgSearchResults msg
  let citations_enabled := msgCitationsEnabled msg
  let has_multimedia :=
    truthyList images || truthyList files || truthyList search_results
  if !has_multimedia then
    .plain role content
  else
    let textParts :=
      if content != "" && content.trim != "" then [AnthropicPart.textPart content]
      else []
    let imageParts :=
      (images.getD []).foldl (fun a i => a ++ anthropicImageParts i) []
    let fileParts :=
      (files.getD []).foldl (fun a fl => a ++ anthropicFileParts fl) []
    let searchParts :=
      (search_results.getD []).foldl
        (fun a r => a ++ anthropicSearchResultParts citations_enabled r) []
    .multiPart role (textParts ++ imageParts ++ fileParts ++ searchParts)

/-- C9: for every message — and every image / file / search-result item —
supplied both as a plain dict and as an attribute-style object exposing the
same field values, each request normalizer produces exactly the same provider
payload: the dict path's `None` defaults and the object path's `""` defaults
are reconciled by the truthiness guards, so the two access styles are
observationally equivalent. -/
theorem message_repr_independent_normalization :
    (∀ f : MessageFields,
      convert_message_to_openai_format (.dict f) =
        convert_message_to_openai_format (.obj f)) ∧
    (∀ f : MessageFields,
      convert_message_to_anthropic_format (.dict f) =
        convert_message_to_anthropic_format (.obj f)) ∧
    (∀ g : ImageFields,
      openaiImageParts (.dict g) = openaiImageParts (.obj g)) ∧
    (∀ g : ImageFields,
      anthropicImageParts (.dict g) = anthropicImageParts (.obj g)) ∧
    (∀ g : FileFields,
      openaiFileParts (.dict g) = openaiFileParts (.obj g)) ∧
    (∀ g : FileFields,
      anthropicFileParts (.dict g) = anthropicFileParts (.obj g)) ∧
    (∀ b (g : SearchResultFields),
      anthropicSearchResultParts b (.dict g) =
        anthropicSearchResultParts b (.obj g)) := by
  have hopt : ∀ o : Option String, pyTruthyOptStr o = (o.getD "" != "") := by
    intro o; cases o <;> rfl
  refine ⟨fun f => rfl, fun f => rfl, ?_, ?_, ?_, ?_, fun b g => rfl⟩
  · intro g
    simp [openaiImageParts, hopt]
  · intro g
    simp [anthropicImageParts, hopt]
  · intro g
    simp [openaiFileParts, hopt]
  · intro g
    simp [anthropicFileParts, hopt]

end MineChat
